import Mathlib

/-!
Shallow embedding of the account/authentication subsystem of the
py-online-cinema backend (src/routes/accounts.py, src/security/passwords.py,
src/database/models/base_models.py), with theorems checking the
natural-language specification against the code.

The relational store is modelled as lists of rows; each HTTP handler is a
pure function from the request data and the store to a response together
with the post-state of the store.  External collaborators (bcrypt hashing,
JWT encode/decode, fresh ids and token strings, database failures) enter as
explicit parameters, so every handler is executable.
-/

namespace OnlineCinema

/-- An HTTP error response: status code and detail string, as raised by
HTTPException(status_code, detail) in the handlers. -/
structure HttpError where
  status : Nat
  detail : String
deriving DecidableEq, Repr

/-- UserGroupEnum from base_models.py: user / moderator / admin. -/
inductive UserGroupEnum where
  | user
  | moderator
  | admin
deriving DecidableEq, Repr

/-- A row of the user_groups table (UserGroupModel). -/
structure GroupRow where
  id : Nat
  name : UserGroupEnum
deriving DecidableEq, Repr

/-- A row of the users table (UserModel): id, unique email, hashed password,
active flag, group reference.  Timestamps are irrelevant to the claims and
omitted. -/
structure UserRow where
  id : Nat
  email : String
  hashedPassword : String
  isActive : Bool
  groupId : Nat
deriving DecidableEq, Repr

/-- A row of one of the three token tables (TokenBaseModel): id, token
string, expiry, owning user.  Expiry is a UTC timestamp in seconds,
modelled as an integer. -/
structure TokenRow where
  id : Nat
  token : String
  expiresAt : Int
  userId : Nat
deriving DecidableEq, Repr

/-- The store: the tables the accounts handlers read and write. -/
structure DB where
  groups : List GroupRow
  users : List UserRow
  activationTokens : List TokenRow
  passwordResetTokens : List TokenRow
  refreshTokens : List TokenRow
deriving DecidableEq, Repr

/-- The special-character set of validate_password_strength in
src/security/passwords.py (the literal inside its last re.search). -/
def special_characters : String := "!@#$%^&*(),.?\":\x7b\x7d|<>"

/-- validate_password_strength from src/security/passwords.py: returns the
first failing check's HTTP 400 error, or none when the password passes all
five checks.  The regex character classes [A-Z], [a-z], \d are the ASCII
classes Char.isUpper, Char.isLower, Char.isDigit. -/
def validate_password_strength (password : String) : Option HttpError :=
  if password.length < 8 then
    some ⟨400, "Password must be at least 8 characters long."⟩
  else if !(password.data.any Char.isUpper) then
    some ⟨400, "Password must contain at least one uppercase letter."⟩
  else if !(password.data.any Char.isLower) then
    some ⟨400, "Password must contain at least one lowercase letter."⟩
  else if !(password.data.any Char.isDigit) then
    some ⟨400, "Password must contain at least one digit."⟩
  else if !(password.data.any (fun c => special_characters.data.contains c)) then
    some ⟨400, "Password must contain at least one special character."⟩
  else
    none

/-- Equality of handler results (an HTTP error or a success value) is
decidable, so concrete runs can be checked by evaluation. -/
instance exceptDecEq {ε α : Type} [DecidableEq ε] [DecidableEq α] :
    DecidableEq (Except ε α)
  | .error e, .error f => decidable_of_iff (e = f) (by simp)
  | .error _, .ok _ => isFalse (by simp)
  | .ok _, .error _ => isFalse (by simp)
  | .ok a, .ok b => decidable_of_iff (a = b) (by simp)

/-- select(UserModel).filter_by(email=email) ... .first(): the first user
row whose email equals the given one. -/
def findUserByEmail (db : DB) (email : String) : Option UserRow :=
  db.users.find? (fun u => u.email == email)

/-- The activation lookup of activate_account: select ActivationTokenModel
joined with UserModel on its user_id foreign key, filtered by
UserModel.email == email and ActivationTokenModel.token == token; .first()
returns the first such token row together with its user. -/
def activationLookup (db : DB) (email tok : String) : Option (TokenRow × UserRow) :=
  (db.activationTokens.filterMap (fun t =>
    match db.users.find? (fun u => u.id == t.userId) with
    | some u => if t.token == tok && u.email == email then some (t, u) else none
    | none => none)).head?

/-- db.delete(token_record) on an activation token: remove the row with
that primary key. -/
def deleteActivationToken (db : DB) (t : TokenRow) : DB :=
  { db with activationTokens := db.activationTokens.filter (fun r => r.id != t.id) }

/-- db.delete(token_record) on a password-reset token. -/
def deleteResetToken (db : DB) (t : TokenRow) : DB :=
  { db with passwordResetTokens := db.passwordResetTokens.filter (fun r => r.id != t.id) }

/-- user.is_active = True followed by commit: update the user row in place. -/
def setUserActive (db : DB) (uid : Nat) : DB :=
  { db with users := db.users.map (fun u =>
      if u.id == uid then { u with isActive := true } else u) }

/-- user.password = p followed by commit.  Modelled from the spec: the
password setter of UserModel (not under src/) stores the hash of the new
password — "rehashes and stores the new password". -/
def setUserPassword (db : DB) (uid : Nat) (newHash : String) : DB :=
  { db with users := db.users.map (fun u =>
      if u.id == uid then { u with hashedPassword := newHash } else u) }

/-- register_user from src/routes/accounts.py.  UserModel.create is not
under src/ and is modelled from the spec: "Registration: create a User
(inactive)" whose stored password is the hash of the raw one — hence the
hash function parameter.  The fresh ids, the fresh activation-token string
and its expiry are parameters (the database sequence and token default);
dbFails signals an SQLAlchemyError inside the try block, after which the
rollback restores the original store. -/
def register_user (db : DB) (email password : String) (hash : String → String)
    (newUserId newTokId : Nat) (newTok : String) (tokExpiry : Int)
    (dbFails : Bool) : Except HttpError UserRow × DB :=
  match findUserByEmail db email with
  | some _ =>
    (.error ⟨409, "A user with this email " ++ email ++ " already exists."⟩, db)
  | none =>
    match db.groups.find? (fun g => g.name == UserGroupEnum.user) with
    | none => (.error ⟨500, "Default user group not found."⟩, db)
    | some g =>
      if dbFails then
        (.error ⟨500, "An error occurred during user creation."⟩, db)
      else
        let newUser : UserRow := ⟨newUserId, email, hash password, false, g.id⟩
        let newToken : TokenRow := ⟨newTokId, newTok, tokExpiry, newUserId⟩
        (.ok newUser,
         { db with users := db.users ++ [newUser],
                   activationTokens := db.activationTokens ++ [newToken] })

/-- activate_account from src/routes/accounts.py: joint (email, token)
lookup; a missing or expired record yields 400 "Invalid or expired
activation token." (the record, when present, is deleted and committed
first); an already-active user yields 400 with nothing written; otherwise
the user is activated, the token deleted, and both committed. -/
def activate_account (db : DB) (email tok : String) (now : Int) :
    Except HttpError String × DB :=
  match activationLookup db email tok with
  | none => (.error ⟨400, "Invalid or expired activation token."⟩, db)
  | some (t, u) =>
    if t.expiresAt < now then
      (.error ⟨400, "Invalid or expired activation token."⟩, deleteActivationToken db t)
    else if u.isActive then
      (.error ⟨400, "User account is already active."⟩, db)
    else
      (.ok "User account activated successfully.",
       deleteActivationToken (setUserActive db u.id) t)

/-- request_password_reset_token from src/routes/accounts.py: a missing or
inactive user gets the generic message with nothing written; otherwise all
reset tokens of the user are deleted, one fresh token row is inserted, and
the same generic message is returned.  The fresh row's id, token string
and expiry are parameters. -/
def request_password_reset_token (db : DB) (email : String)
    (newId : Nat) (newTok : String) (expiry : Int) : String × DB :=
  match findUserByEmail db email with
  | none => ("If you are registered, you will receive an email with instructions.", db)
  | some u =>
    if !u.isActive then
      ("If you are registered, you will receive an email with instructions.", db)
    else
      let cleared := db.passwordResetTokens.filter (fun r => r.userId != u.id)
      ("If you are registered, you will receive an email with instructions.",
       { db with passwordResetTokens := cleared ++ [⟨newId, newTok, expiry, u.id⟩] })

/-- resend_activation_token from src/routes/accounts.py: a missing user
gets the generic message; an already-active user gets "Account is already
activated."; otherwise the user's activation tokens are deleted, one fresh
token is inserted and the generic message is returned. -/
def resend_activation_token (db : DB) (email : String)
    (newId : Nat) (newTok : String) (expiry : Int) : String × DB :=
  match findUserByEmail db email with
  | none => ("If you are registered, you will receive an email with instructions.", db)
  | some u =>
    if u.isActive then
      ("Account is already activated.", db)
    else
      let cleared := db.activationTokens.filter (fun r => r.userId != u.id)
      ("If you are registered, you will receive an email with instructions.",
       { db with activationTokens := cleared ++ [⟨newId, newTok, expiry, u.id⟩] })

/-- reset_password from src/routes/accounts.py: missing or inactive user
yields 400 with nothing written; a reset-token row is fetched by user id;
a missing row yields 400, a mismatched or expired row is deleted and 400
raised; otherwise the new password is stored (hashed, see setUserPassword)
and the row deleted in one commit.  dbFails signals an SQLAlchemyError in
the final try block, whose rollback restores the store. -/
def reset_password (db : DB) (email tok password : String) (hash : String → String)
    (now : Int) (dbFails : Bool) : Except HttpError String × DB :=
  match findUserByEmail db email with
  | none => (.error ⟨400, "Invalid email or token."⟩, db)
  | some u =>
    if !u.isActive then
      (.error ⟨400, "Invalid email or token."⟩, db)
    else
      match db.passwordResetTokens.find? (fun r => r.userId == u.id) with
      | none => (.error ⟨400, "Invalid email or token."⟩, db)
      | some r =>
        if r.token != tok then
          (.error ⟨400, "Invalid email or token."⟩, deleteResetToken db r)
        else if r.expiresAt < now then
          (.error ⟨400, "Invalid email or token."⟩, deleteResetToken db r)
        else if dbFails then
          (.error ⟨500, "An error occurred while resetting the password."⟩, db)
        else
          (.ok "Password reset successfully.",
           deleteResetToken (setUserPassword db u.id (hash password)) r)

/-- login_user from src/routes/accounts.py.  user.verify_password is not
under src/ and is modelled from the spec: "verifies password hash" — an
abstract verify function applied to the raw password and the stored hash.
On success one RefreshTokenModel row is created via RefreshTokenModel.create
(base_models.py): expiry = now + daysValid days (in seconds), token = the
jwt refresh token; its fresh id is a parameter.  dbFails signals an
SQLAlchemyError around the insert. -/
def login_user (db : DB) (email password : String)
    (verify : String → String → Bool) (jwtRefresh jwtAccess : String)
    (newId : Nat) (now : Int) (daysValid : Int) (dbFails : Bool) :
    Except HttpError (String × String) × DB :=
  match findUserByEmail db email with
  | none => (.error ⟨401, "Invalid email or password."⟩, db)
  | some u =>
    if !(verify password u.hashedPassword) then
      (.error ⟨401, "Invalid email or password."⟩, db)
    else if !u.isActive then
      (.error ⟨403, "User account is not activated."⟩, db)
    else if dbFails then
      (.error ⟨500, "An error occurred while processing the request."⟩, db)
    else
      (.ok (jwtAccess, jwtRefresh),
       { db with refreshTokens :=
          db.refreshTokens ++ [⟨newId, jwtRefresh, now + daysValid * 86400, u.id⟩] })

/-- refresh_access_token from src/routes/accounts.py.  decode models
jwt_manager.decode_refresh_token: failure is a BaseSecurityError whose
message becomes the 400 detail; success yields the payload's optional
user_id claim.  The row lookup is by the exact token string; the user
lookup is by the decoded id (a missing claim matches no user).  The fresh
access token is a parameter; the store is never written. -/
def refresh_access_token (db : DB) (refreshTok : String)
    (decode : String → Except String (Option Nat)) (newAccess : String) :
    Except HttpError String × DB :=
  match decode refreshTok with
  | .error e => (.error ⟨400, e⟩, db)
  | .ok uid? =>
    match db.refreshTokens.find? (fun r => r.token == refreshTok) with
    | none => (.error ⟨401, "Refresh token not found."⟩, db)
    | some _ =>
      match db.users.find? (fun u => some u.id == uid?) with
      | none => (.error ⟨404, "User not found."⟩, db)
      | some _ => (.ok newAccess, db)

/-- logout_user from src/routes/accounts.py: a decode failure, a missing
user_id claim, or a falsy user_id 0 all end in the catch-all 400 (the
inner HTTPException is swallowed by the bare except and replaced by the
generic message); otherwise the rows matching (user id, token string) are
deleted — deleting zero rows is fine — and success is returned. -/
def logout_user (db : DB) (refreshTok : String)
    (decode : String → Except String (Option Nat)) :
    Except HttpError String × DB :=
  match decode refreshTok with
  | .error _ => (.error ⟨400, "Failed to logout. Invalid or expired token."⟩, db)
  | .ok none => (.error ⟨400, "Failed to logout. Invalid or expired token."⟩, db)
  | .ok (some uid) =>
    if uid == 0 then
      (.error ⟨400, "Failed to logout. Invalid or expired token."⟩, db)
    else
      let kept := db.refreshTokens.filter
        (fun r => !(r.userId == uid && r.token == refreshTok))
      (.ok "Successfully logged out.", { db with refreshTokens := kept })

/-- change_password from src/routes/accounts.py: the current user is the
row resolved by the auth dependency; a failing old-password check yields
400, a weak new password yields the strength validator's error, otherwise
the user's stored hash is replaced and committed. -/
def change_password (db : DB) (currentUser : UserRow)
    (oldPassword newPassword : String)
    (verify : String → String → Bool) (hash : String → String) :
    Except HttpError String × DB :=
  if !(verify oldPassword currentUser.hashedPassword) then
    (.error ⟨400, "Old password is incorrect."⟩, db)
  else
    match validate_password_strength newPassword with
    | some e => (.error e, db)
    | none =>
      (.ok "Password changed successfully.",
       setUserPassword db currentUser.id (hash newPassword))

/-- Invariant of C7: at most one password-reset token row per user — no two
rows of the password_reset_tokens table share a user id (the table's
UniqueConstraint on user_id). -/
def resetTokensUnique (db : DB) : Prop :=
  db.passwordResetTokens.Pairwise (fun a b => a.userId ≠ b.userId)

/-- Concrete fixture: the default user group. -/
def groupsW : List GroupRow := [⟨1, UserGroupEnum.user⟩]

/-- Concrete fixture: a registered, not yet activated user. -/
def aliceInactive : UserRow := ⟨1, "alice@example.com", "bcrypt:Str0ng!x", false, 1⟩

/-- Concrete fixture: the same user once activated. -/
def aliceActive : UserRow := ⟨1, "alice@example.com", "bcrypt:Str0ng!x", true, 1⟩

/-- Concrete fixture: alice's stored activation token, expiring at time 100. -/
def tokRowA : TokenRow := ⟨10, "tokA", 100, 1⟩

/-- Concrete fixture: store with inactive alice and her activation token. -/
def dbActInactive : DB := ⟨groupsW, [aliceInactive], [tokRowA], [], []⟩

/-- Concrete fixture: store with active alice and a leftover activation token. -/
def dbActActive : DB := ⟨groupsW, [aliceActive], [tokRowA], [], []⟩

/-- Concrete fixture: store with inactive alice and no tokens. -/
def dbInactiveNoTok : DB := ⟨groupsW, [aliceInactive], [], [], []⟩

/-- Concrete fixture: store with active alice and no tokens. -/
def dbActiveNoTok : DB := ⟨groupsW, [aliceActive], [], [], []⟩

/-- Concrete fixture: alice's stored refresh-token row. -/
def rtRow : TokenRow := ⟨20, "rt1", 1000, 1⟩

/-- Concrete fixture: store with active alice holding one login session. -/
def dbSession : DB := ⟨groupsW, [aliceActive], [], [], [rtRow]⟩

/-- Concrete fixture: a decode function accepting exactly the session token
"rt1" with user_id claim 1. -/
def decodeW : String → Except String (Option Nat) := fun t =>
  if t == "rt1" then Except.ok (some 1) else Except.error "Token has expired."

/-- Concrete fixture: a password hasher standing in for bcrypt. -/
def hashW : String → String := fun p => "bcrypt:" ++ p

/-- Concrete fixture: verification against hashW hashes. -/
def verifyW : String → String → Bool := fun p h => h == "bcrypt:" ++ p

/-- Concrete fixture: alice's stored password-reset token. -/
def resetRow : TokenRow := ⟨30, "rtok", 100, 1⟩

/-- Concrete fixture: store with active alice and one reset token. -/
def dbReset : DB := ⟨groupsW, [aliceActive], [], [resetRow], []⟩

/-- Claim C8: the strength validator rejects a password exactly when it is
shorter than 8 characters, or lacks an uppercase letter, a lowercase
letter, a digit, or a character from the defined special-character set;
each of the five violations is reported with its own distinct 400 message
(the earliest failing check wins), and passwords satisfying all five
conditions are accepted. -/
theorem validate_password_strength_spec (p : String) :
    (validate_password_strength p = none ↔
      (8 ≤ p.length ∧ p.data.any Char.isUpper = true ∧ p.data.any Char.isLower = true ∧
        p.data.any Char.isDigit = true ∧
        p.data.any (fun c => special_characters.data.contains c) = true))
    ∧ (p.length < 8 →
        validate_password_strength p =
          some ⟨400, "Password must be at least 8 characters long."⟩)
    ∧ (8 ≤ p.length → p.data.any Char.isUpper = false →
        validate_password_strength p =
          some ⟨400, "Password must contain at least one uppercase letter."⟩)
    ∧ (8 ≤ p.length → p.data.any Char.isUpper = true → p.data.any Char.isLower = false →
        validate_password_strength p =
          some ⟨400, "Password must contain at least one lowercase letter."⟩)
    ∧ (8 ≤ p.length → p.data.any Char.isUpper = true → p.data.any Char.isLower = true →
        p.data.any Char.isDigit = false →
        validate_password_strength p =
          some ⟨400, "Password must contain at least one digit."⟩)
    ∧ (8 ≤ p.length → p.data.any Char.isUpper = true → p.data.any Char.isLower = true →
        p.data.any Char.isDigit = true →
        p.data.any (fun c => special_characters.data.contains c) = false →
        validate_password_strength p =
          some ⟨400, "Password must contain at least one special character."⟩)
    ∧ ("Password must be at least 8 characters long." ≠
          "Password must contain at least one uppercase letter." ∧
        "Password must be at least 8 characters long." ≠
          "Password must contain at least one lowercase letter." ∧
        "Password must be at least 8 characters long." ≠
          "Password must contain at least one digit." ∧
        "Password must be at least 8 characters long." ≠
          "Password must contain at least one special character." ∧
        "Password must contain at least one uppercase letter." ≠
          "Password must contain at least one lowercase letter." ∧
        "Password must contain at least one uppercase letter." ≠
          "Password must contain at least one digit." ∧
        "Password must contain at least one uppercase letter." ≠
          "Password must contain at least one special character." ∧
        "Password must contain at least one lowercase letter." ≠
          "Password must contain at least one digit." ∧
        "Password must contain at least one lowercase letter." ≠
          "Password must contain at least one special character." ∧
        "Password must contain at least one digit." ≠
          "Password must contain at least one special character.") := by
  refine ⟨?_, ?_, ?_, ?_, ?_, ?_, by decide⟩ <;>
    · unfold validate_password_strength
      split_ifs <;> simp_all

/-- Witness for C8 at concrete inputs: a compliant password is accepted and
a short one is rejected with the length message. -/
theorem validate_password_strength_spec_witness :
    validate_password_strength "Str0ng!x" = none ∧
    validate_password_strength "aA1!" =
      some ⟨400, "Password must be at least 8 characters long."⟩ :=
  ⟨(validate_password_strength_spec "Str0ng!x").1.mpr (by decide),
   (validate_password_strength_spec "aA1!").2.1 (by decide)⟩

/-- Claim C1 counterexample: an activation attempt for alice with the
mismatched token string "tokB" (her stored token is "tokA", unexpired)
fails with 400 as claimed, but the stale activation-token row is NOT
deleted: the store is unchanged and the row is still present — refuting
the claimed deletion side effect for mismatched tokens. -/
theorem activate_mismatched_token_not_deleted :
    (activate_account dbActInactive "alice@example.com" "tokB" 0).1 =
      Except.error ⟨400, "Invalid or expired activation token."⟩
    ∧ (activate_account dbActInactive "alice@example.com" "tokB" 0).2 = dbActInactive
    ∧ tokRowA ∈
        (activate_account dbActInactive "alice@example.com" "tokB" 0).2.activationTokens := by
  decide

/-- Claim C1 amended: an activation attempt whose (email, token) pair
matches no stored row — in particular one whose token string mismatches
the stored activation token — fails with 400 and deletes nothing (the
store is unchanged); an attempt whose pair matches a stored row that has
expired fails with 400 and deletes that stale row. -/
theorem activate_account_stale_token_handling (db : DB) (email tok : String) (now : Int) :
    (activationLookup db email tok = none →
      activate_account db email tok now =
        (Except.error ⟨400, "Invalid or expired activation token."⟩, db))
    ∧ (∀ t u, activationLookup db email tok = some (t, u) → t.expiresAt < now →
        (activate_account db email tok now).1 =
          Except.error ⟨400, "Invalid or expired activation token."⟩
        ∧ ∀ r ∈ (activate_account db email tok now).2.activationTokens, r.id ≠ t.id) := by
  constructor
  · intro h
    unfold activate_account
    rw [h]
  · intro t u h hexp
    unfold activate_account
    rw [h]
    simp only [if_pos hexp]
    refine ⟨by trivial, ?_⟩
    intro r hr
    simp only [deleteActivationToken, List.mem_filter] at hr
    simpa using hr.2

/-- Witness for C1's amended theorem: the mismatch case on alice's store
leaves it unchanged, and an expired-token attempt (time 200 past expiry
100) deletes the stale row. -/
theorem activate_account_stale_token_handling_witness :
    (activate_account dbActInactive "alice@example.com" "tokB" 0 =
      (Except.error ⟨400, "Invalid or expired activation token."⟩, dbActInactive))
    ∧ ((activate_account dbActInactive "alice@example.com" "tokA" 200).1 =
        Except.error ⟨400, "Invalid or expired activation token."⟩
      ∧ ∀ r ∈ (activate_account dbActInactive "alice@example.com" "tokA" 200).2.activationTokens,
          r.id ≠ tokRowA.id) :=
  ⟨(activate_account_stale_token_handling dbActInactive "alice@example.com" "tokB" 0).1
      (by decide),
   (activate_account_stale_token_handling dbActInactive "alice@example.com" "tokA" 200).2
      tokRowA aliceInactive (by decide) (by decide)⟩

/-- Claim C9: an activation attempt whose (email, token) lookup succeeds,
whose token is unexpired, but whose account is already active fails with
400 "User account is already active." and leaves the store completely
unchanged — in particular the activation-token row is not deleted on this
path. -/
theorem activate_account_already_active (db : DB) (email tok : String) (now : Int)
    (t : TokenRow) (u : UserRow)
    (hfind : activationLookup db email tok = some (t, u))
    (hexp : ¬ t.expiresAt < now) (hact : u.isActive = true) :
    activate_account db email tok now =
      (Except.error ⟨400, "User account is already active."⟩, db) := by
  unfold activate_account
  rw [hfind]
  simp [hexp, hact]

/-- Witness for C9: active alice with her unexpired token: the attempt
fails with the already-active message and the store — token row included —
is untouched. -/
theorem activate_account_already_active_witness :
    activate_account dbActActive "alice@example.com" "tokA" 0 =
      (Except.error ⟨400, "User account is already active."⟩, dbActActive) :=
  activate_account_already_active dbActActive "alice@example.com" "tokA" 0
    tokRowA aliceActive (by decide) (by decide) (by decide)

/-- Claim C2 counterexample: two resend-activation requests for alice that
differ only in her activation state return different response bodies — the
inactive store yields the generic message, the active store yields
"Account is already activated." — refuting the claim that the success
message is identical when the account exists but is already active. -/
theorem resend_activation_message_reveals_state :
    (resend_activation_token dbInactiveNoTok "alice@example.com" 5 "T" 100).1 ≠
    (resend_activation_token dbActiveNoTok "alice@example.com" 5 "T" 100).1 := by
  decide

/-- Claim C2 amended: the password-reset-request endpoint returns the same
success message in every store state — whether or not the account exists
and whatever its activation state; the resend-activation endpoint returns
the same generic message when the account does not exist and when it
exists but is inactive, but returns the distinct body "Account is already
activated." when the account is already active. -/
theorem anti_enumeration_messages (db : DB) (email : String)
    (newId : Nat) (newTok : String) (expiry : Int) :
    ((request_password_reset_token db email newId newTok expiry).1 =
      "If you are registered, you will receive an email with instructions.")
    ∧ (findUserByEmail db email = none →
        (resend_activation_token db email newId newTok expiry).1 =
          "If you are registered, you will receive an email with instructions.")
    ∧ (∀ u, findUserByEmail db email = some u → u.isActive = false →
        (resend_activation_token db email newId newTok expiry).1 =
          "If you are registered, you will receive an email with instructions.")
    ∧ (∀ u, findUserByEmail db email = some u → u.isActive = true →
        (resend_activation_token db email newId newTok expiry).1 =
          "Account is already activated.") := by
  refine ⟨?_, ?_, ?_, ?_⟩
  · unfold request_password_reset_token
    cases h : findUserByEmail db email with
    | none => rfl
    | some u => by_cases ha : u.isActive <;> simp [ha]
  · intro h
    unfold resend_activation_token
    rw [h]
  · intro u h ha
    unfold resend_activation_token
    rw [h]
    simp [ha]
  · intro u h ha
    unfold resend_activation_token
    rw [h]
    simp [ha]

/-- Witness for C2's amended theorem: reset-request on a store without the
account returns the generic message; resend on missing, inactive and
active accounts returns the stated bodies. -/
theorem anti_enumeration_messages_witness :
    ((request_password_reset_token dbActiveNoTok "alice@example.com" 5 "T" 100).1 =
      "If you are registered, you will receive an email with instructions.")
    ∧ ((resend_activation_token dbInactiveNoTok "bob@example.com" 5 "T" 100).1 =
        "If you are registered, you will receive an email with instructions.")
    ∧ ((resend_activation_token dbInactiveNoTok "alice@example.com" 5 "T" 100).1 =
        "If you are registered, you will receive an email with instructions.")
    ∧ ((resend_activation_token dbActiveNoTok "alice@example.com" 5 "T" 100).1 =
        "Account is already activated.") :=
  ⟨(anti_enumeration_messages dbActiveNoTok "alice@example.com" 5 "T" 100).1,
   (anti_enumeration_messages dbInactiveNoTok "bob@example.com" 5 "T" 100).2.1 (by decide),
   (anti_enumeration_messages dbInactiveNoTok "alice@example.com" 5 "T" 100).2.2.1
      aliceInactive (by decide) (by decide),
   (anti_enumeration_messages dbActiveNoTok "alice@example.com" 5 "T" 100).2.2.2
      aliceActive (by decide) (by decide)⟩

/-- Deleting rows keeps the one-reset-token-per-user property: a filtered
row list stays pairwise-distinct in user id. -/
theorem pairwise_userId_filter (l : List TokenRow) (p : TokenRow → Bool)
    (h : l.Pairwise fun a b => a.userId ≠ b.userId) :
    (l.filter p).Pairwise (fun a b => a.userId ≠ b.userId) :=
  h.sublist (List.filter_sublist l)

/-- Delete-then-insert keeps the one-reset-token-per-user property: after
removing every row of a user and appending a single fresh row for that
user, row user ids are still pairwise distinct. -/
theorem pairwise_userId_replace (l : List TokenRow) (uid : Nat) (t : TokenRow)
    (h : l.Pairwise fun a b => a.userId ≠ b.userId) (ht : t.userId = uid) :
    ((l.filter fun r => r.userId != uid) ++ [t]).Pairwise
      (fun a b => a.userId ≠ b.userId) := by
  rw [List.pairwise_append]
  refine ⟨pairwise_userId_filter l _ h, List.pairwise_singleton _ t, ?_⟩
  intro a ha b hb
  simp only [List.mem_singleton] at hb
  subst hb
  have h2 : a.userId ≠ uid := by simpa using (List.mem_filter.mp ha).2
  rw [ht]
  exact h2

/-- Claim C7: no two password-reset token rows share a user id (at most one
reset token per user), and every accounts operation preserves this
invariant — registration, activation, resend-activation, password-reset
request (which deletes the user's old tokens before inserting exactly one
fresh one), password-reset completion (which deletes the row on success
and on mismatch/expiry failure alike), login, refresh, logout and
change-password. -/
theorem reset_token_invariant_preserved (db : DB) (h : resetTokensUnique db)
    (email tok password oldPassword : String) (hash : String → String)
    (verify : String → String → Bool) (nuid ntid nid : Nat)
    (ntok jr ja na : String) (texp now days : Int) (dbFails : Bool)
    (decode : String → Except String (Option Nat)) (cu : UserRow) :
    resetTokensUnique (register_user db email password hash nuid ntid ntok texp dbFails).2
    ∧ resetTokensUnique (activate_account db email tok now).2
    ∧ resetTokensUnique (resend_activation_token db email ntid ntok texp).2
    ∧ resetTokensUnique (request_password_reset_token db email ntid ntok texp).2
    ∧ resetTokensUnique (reset_password db email tok password hash now dbFails).2
    ∧ resetTokensUnique (login_user db email password verify jr ja nid now days dbFails).2
    ∧ resetTokensUnique (refresh_access_token db tok decode na).2
    ∧ resetTokensUnique (logout_user db tok decode).2
    ∧ resetTokensUnique (change_password db cu oldPassword password verify hash).2 := by
  refine ⟨?_, ?_, ?_, ?_, ?_, ?_, ?_, ?_, ?_⟩
  · unfold register_user
    repeat first | exact h | split
  · unfold activate_account deleteActivationToken setUserActive
    repeat first | exact h | split
  · unfold resend_activation_token
    repeat first | exact h | split
  · unfold request_password_reset_token
    repeat first | exact h | exact pairwise_userId_replace _ _ _ h rfl | split
  · unfold reset_password deleteResetToken setUserPassword
    repeat first | exact h | exact pairwise_userId_filter _ _ h | split
  · unfold login_user
    repeat first | exact h | split
  · unfold refresh_access_token
    repeat first | exact h | split
  · unfold logout_user
    repeat first | exact h | split
  · unfold change_password setUserPassword
    repeat first | exact h | split

/-- Witness for C7: on the concrete store holding alice's single reset
token, a fresh password-reset request still leaves at most one reset-token
row per user. -/
theorem reset_token_invariant_preserved_witness :
    resetTokensUnique (request_password_reset_token dbReset "alice@example.com" 31 "ntok" 500).2 :=
  (reset_token_invariant_preserved dbReset
    (by simp [resetTokensUnique, dbReset])
    "alice@example.com" "rtok" "Pass!123" "Old!1234" hashW verifyW
    2 31 32 "ntok" "jr" "ja" "na" 500 0 7 false decodeW aliceActive).2.2.2.1

/-- Shape of a successful logout: decode yields a nonzero user id and the
rows matching (user id, token string) are deleted. -/
theorem logout_user_ok (db : DB) (tok : String)
    (decode : String → Except String (Option Nat)) (uid : Nat)
    (hdec : decode tok = Except.ok (some uid)) (huid : uid ≠ 0) :
    logout_user db tok decode =
      (Except.ok "Successfully logged out.",
       { db with refreshTokens :=
          List.filter (fun r => !(r.userId == uid && r.token == tok)) db.refreshTokens }) := by
  unfold logout_user
  rw [hdec]
  simp [huid]

/-- Shape of a refresh whose decode succeeds but whose exact token string
is not stored: 401 Unauthenticated, store untouched. -/
theorem refresh_not_found (db : DB) (tok : String)
    (decode : String → Except String (Option Nat)) (na : String) (uid? : Option Nat)
    (hdec : decode tok = Except.ok uid?)
    (hnone : db.refreshTokens.find? (fun r => r.token == tok) = none) :
    refresh_access_token db tok decode na =
      (Except.error ⟨401, "Refresh token not found."⟩, db) := by
  unfold refresh_access_token
  rw [hdec]
  simp [hnone]

/-- Claim C3: for a refresh token that decodes to a nonzero user id owning
every stored row with that token string, a first logout succeeds; a second
logout with the same token also succeeds and changes nothing (deleting
zero rows is not an error); a refresh call after logout fails with 401
Unauthenticated because the stored row is gone; and a token whose decode
fails is rejected by logout with 400 before any lookup, the store
untouched. -/
theorem logout_idempotent_refresh_unauthenticated (db : DB) (tok : String)
    (decode : String → Except String (Option Nat)) (newAccess : String) :
    (∀ uid, decode tok = Except.ok (some uid) → uid ≠ 0 →
      (∀ r ∈ db.refreshTokens, r.token = tok → r.userId = uid) →
      (logout_user db tok decode).1 = Except.ok "Successfully logged out."
      ∧ logout_user (logout_user db tok decode).2 tok decode =
          (Except.ok "Successfully logged out.", (logout_user db tok decode).2)
      ∧ (refresh_access_token (logout_user db tok decode).2 tok decode newAccess).1 =
          Except.error ⟨401, "Refresh token not found."⟩)
    ∧ (∀ e, decode tok = Except.error e →
        logout_user db tok decode =
          (Except.error ⟨400, "Failed to logout. Invalid or expired token."⟩, db)) := by
  constructor
  · intro uid hdec huid hown
    have hres := logout_user_ok db tok decode uid hdec huid
    refine ⟨by rw [hres], ?_, ?_⟩
    · have hres2 := logout_user_ok
        { db with refreshTokens :=
            List.filter (fun r => !(r.userId == uid && r.token == tok)) db.refreshTokens }
        tok decode uid hdec huid
      have hkept : List.filter (fun r => !(r.userId == uid && r.token == tok))
          (List.filter (fun r => !(r.userId == uid && r.token == tok)) db.refreshTokens) =
          List.filter (fun r => !(r.userId == uid && r.token == tok)) db.refreshTokens :=
        List.filter_eq_self.mpr (fun r hr => (List.mem_filter.mp hr).2)
      rw [hres]
      rw [hres2]
      simp [hkept]
    · rw [hres]
      have hnone : List.find? (fun r => r.token == tok)
          (List.filter (fun r => !(r.userId == uid && r.token == tok)) db.refreshTokens) =
          none := by
        rw [List.find?_eq_none]
        intro x hx
        rcases List.mem_filter.mp hx with ⟨hmem, hpass⟩
        intro hxtok
        have hx1 : x.token = tok := by simpa using hxtok
        have hx2 : x.userId = uid := hown x hmem hx1
        simp [hx1, hx2] at hpass
      rw [refresh_not_found _ tok decode newAccess (some uid) hdec hnone]
  · intro e hdec
    unfold logout_user
    rw [hdec]

/-- Witness for C3 on the concrete single-session store: logout of "rt1"
succeeds, a second logout is a successful no-op, refresh with "rt1"
afterwards fails with 401, and logging out with an undecodable token fails
with 400 leaving the store unchanged. -/
theorem logout_idempotent_refresh_unauthenticated_witness :
    ((logout_user dbSession "rt1" decodeW).1 = Except.ok "Successfully logged out."
     ∧ logout_user (logout_user dbSession "rt1" decodeW).2 "rt1" decodeW =
         (Except.ok "Successfully logged out.", (logout_user dbSession "rt1" decodeW).2)
     ∧ (refresh_access_token (logout_user dbSession "rt1" decodeW).2 "rt1" decodeW "na").1 =
         Except.error ⟨401, "Refresh token not found."⟩)
    ∧ (logout_user dbSession "bad" decodeW =
        (Except.error ⟨400, "Failed to logout. Invalid or expired token."⟩, dbSession)) :=
  ⟨(logout_idempotent_refresh_unauthenticated dbSession "rt1" decodeW "na").1 1
      (by decide) (by decide) (by decide),
   (logout_idempotent_refresh_unauthenticated dbSession "bad" decodeW "na").2
      "Token has expired." (by decide)⟩

/-- Claim C4: registration with an already-used email fails with 409
Conflict and leaves the store unchanged; with a fresh email (and the
default user group present) a database failure rolls both inserts back and
reports the 500-class creation error with the store unchanged, while on
success exactly one inactive User row and exactly one ActivationToken row
are appended in the single atomic commit, the other tables untouched. -/
theorem register_user_spec (db : DB) (email password : String)
    (hash : String → String) (nuid ntid : Nat) (ntok : String) (texp : Int)
    (dbFails : Bool) :
    (∀ u, findUserByEmail db email = some u →
      register_user db email password hash nuid ntid ntok texp dbFails =
        (Except.error ⟨409, "A user with this email " ++ email ++ " already exists."⟩, db))
    ∧ (∀ g, findUserByEmail db email = none →
        db.groups.find? (fun g => g.name == UserGroupEnum.user) = some g →
        (dbFails = true →
          register_user db email password hash nuid ntid ntok texp dbFails =
            (Except.error ⟨500, "An error occurred during user creation."⟩, db))
        ∧ (dbFails = false →
          register_user db email password hash nuid ntid ntok texp dbFails =
            (Except.ok ⟨nuid, email, hash password, false, g.id⟩,
             { db with
                users := db.users ++ [⟨nuid, email, hash password, false, g.id⟩],
                activationTokens := db.activationTokens ++ [⟨ntid, ntok, texp, nuid⟩] }))) := by
  constructor
  · intro u hu
    unfold register_user
    rw [hu]
  · intro g hnone hg
    constructor
    · intro hfail
      unfold register_user
      rw [hnone, hg]
      simp [hfail]
    · intro hok
      unfold register_user
      rw [hnone, hg]
      simp [hok]

/-- Witness for C4: registering alice's email again on the concrete store
fails with 409 and changes nothing; registering bob succeeds, appending
exactly one inactive user row and one activation-token row. -/
theorem register_user_spec_witness :
    (register_user dbActiveNoTok "alice@example.com" "Pass!123" hashW 2 11 "tokB" 900 false =
      (Except.error ⟨409, "A user with this email alice@example.com already exists."⟩,
       dbActiveNoTok))
    ∧ (register_user dbActiveNoTok "bob@example.com" "Pass!123" hashW 2 11 "tokB" 900 false =
        (Except.ok ⟨2, "bob@example.com", hashW "Pass!123", false, 1⟩,
         { dbActiveNoTok with
            users := dbActiveNoTok.users ++ [⟨2, "bob@example.com", hashW "Pass!123", false, 1⟩],
            activationTokens := dbActiveNoTok.activationTokens ++ [⟨11, "tokB", 900, 2⟩] })) :=
  ⟨(register_user_spec dbActiveNoTok "alice@example.com" "Pass!123" hashW 2 11 "tokB" 900
      false).1 aliceActive (by decide),
   ((register_user_spec dbActiveNoTok "bob@example.com" "Pass!123" hashW 2 11 "tokB" 900
      false).2 ⟨1, UserGroupEnum.user⟩ (by decide) (by decide)).2 rfl⟩

/-- Claim C5: a login with an unknown email or a non-verifying password
fails with 401; a verifying password on an inactive account fails with 403
Forbidden, no token pair issued and the store — refresh-token rows
included — unchanged; a successful login (active account, no database
failure) returns the access and refresh tokens and appends exactly one new
RefreshToken row, deleting none of the existing ones. -/
theorem login_user_spec (db : DB) (email password : String)
    (verify : String → String → Bool) (jr ja : String) (nid : Nat)
    (now days : Int) (dbFails : Bool) :
    (findUserByEmail db email = none →
      login_user db email password verify jr ja nid now days dbFails =
        (Except.error ⟨401, "Invalid email or password."⟩, db))
    ∧ (∀ u, findUserByEmail db email = some u →
        verify password u.hashedPassword = false →
        login_user db email password verify jr ja nid now days dbFails =
          (Except.error ⟨401, "Invalid email or password."⟩, db))
    ∧ (∀ u, findUserByEmail db email = some u →
        verify password u.hashedPassword = true → u.isActive = false →
        login_user db email password verify jr ja nid now days dbFails =
          (Except.error ⟨403, "User account is not activated."⟩, db))
    ∧ (∀ u, findUserByEmail db email = some u →
        verify password u.hashedPassword = true → u.isActive = true →
        dbFails = false →
        login_user db email password verify jr ja nid now days dbFails =
          (Except.ok (ja, jr),
           { db with refreshTokens :=
              db.refreshTokens ++ [⟨nid, jr, now + days * 86400, u.id⟩] })) := by
  refine ⟨?_, ?_, ?_, ?_⟩
  · intro hnone
    unfold login_user
    rw [hnone]
  · intro u hu hv
    unfold login_user
    rw [hu]
    simp [hv]
  · intro u hu hv ha
    unfold login_user
    rw [hu]
    simp [hv, ha]
  · intro u hu hv ha hok
    unfold login_user
    rw [hu]
    simp [hv, ha, hok]

/-- Witness for C5: on the concrete store, alice's correct password before
activation yields 403 with the store unchanged, and after activation a
login appends exactly one refresh-token row and returns both tokens. -/
theorem login_user_spec_witness :
    (login_user dbInactiveNoTok "alice@example.com" "Str0ng!x" verifyW "jr" "ja" 21 0 7 false =
      (Except.error ⟨403, "User account is not activated."⟩, dbInactiveNoTok))
    ∧ (login_user dbActiveNoTok "alice@example.com" "Str0ng!x" verifyW "jr" "ja" 21 0 7 false =
        (Except.ok ("ja", "jr"),
         { dbActiveNoTok with refreshTokens :=
            dbActiveNoTok.refreshTokens ++ [⟨21, "jr", 0 + 7 * 86400, 1⟩] }))
    ∧ (login_user dbActiveNoTok "alice@example.com" "wrong" verifyW "jr" "ja" 21 0 7 false =
        (Except.error ⟨401, "Invalid email or password."⟩, dbActiveNoTok)) :=
  ⟨(login_user_spec dbInactiveNoTok "alice@example.com" "Str0ng!x" verifyW "jr" "ja" 21 0 7
      false).2.2.1 aliceInactive (by decide) (by decide) (by decide),
   (login_user_spec dbActiveNoTok "alice@example.com" "Str0ng!x" verifyW "jr" "ja" 21 0 7
      false).2.2.2 aliceActive (by decide) (by decide) (by decide) rfl,
   (login_user_spec dbActiveNoTok "alice@example.com" "wrong" verifyW "jr" "ja" 21 0 7
      false).2.1 aliceActive (by decide) (by decide)⟩

/-- Claim C6: a refresh call whose token decodes and whose exact token
string is stored returns a new access token only and leaves the store —
hence the set of refresh-token rows — unchanged (no rotation); a failing
decode yields 400 with the decode error as detail; a missing row yields
401.  The success case assumes the decoded user id belongs to an existing
user, the referential-integrity invariant the database enforces for every
stored refresh-token row. -/
theorem refresh_access_token_spec (db : DB) (tok : String)
    (decode : String → Except String (Option Nat)) (newAccess : String) :
    (∀ e, decode tok = Except.error e →
      refresh_access_token db tok decode newAccess = (Except.error ⟨400, e⟩, db))
    ∧ (∀ uid?, decode tok = Except.ok uid? →
        db.refreshTokens.find? (fun r => r.token == tok) = none →
        refresh_access_token db tok decode newAccess =
          (Except.error ⟨401, "Refresh token not found."⟩, db))
    ∧ (∀ uid? r u, decode tok = Except.ok uid? →
        db.refreshTokens.find? (fun r => r.token == tok) = some r →
        db.users.find? (fun v => some v.id == uid?) = some u →
        refresh_access_token db tok decode newAccess = (Except.ok newAccess, db)) := by
  refine ⟨?_, ?_, ?_⟩
  · intro e hdec
    unfold refresh_access_token
    rw [hdec]
  · intro uid? hdec hnone
    exact refresh_not_found db tok decode newAccess uid? hdec hnone
  · intro uid? r u hdec hrow huser
    unfold refresh_access_token
    rw [hdec]
    simp [hrow, huser]

/-- Witness for C6 on the concrete session store: refresh with the stored
"rt1" returns the fresh access token with the store unchanged; an
undecodable token yields 400; a decodable but unstored token ("rt1"
against the store without sessions) yields 401. -/
theorem refresh_access_token_spec_witness :
    (refresh_access_token dbSession "rt1" decodeW "na" = (Except.ok "na", dbSession))
    ∧ (refresh_access_token dbSession "bad" decodeW "na" =
        (Except.error ⟨400, "Token has expired."⟩, dbSession))
    ∧ (refresh_access_token dbActiveNoTok "rt1" decodeW "na" =
        (Except.error ⟨401, "Refresh token not found."⟩, dbActiveNoTok)) :=
  ⟨(refresh_access_token_spec dbSession "rt1" decodeW "na").2.2 (some 1) rtRow aliceActive
      (by decide) (by decide) (by decide),
   (refresh_access_token_spec dbSession "bad" decodeW "na").1 "Token has expired." (by decide),
   (refresh_access_token_spec dbActiveNoTok "rt1" decodeW "na").2.1 (some 1)
      (by decide) (by decide)⟩

/-- Claim C10: a successful change-password call (old password verifies,
new password passes the strength policy) changes only the calling user's
stored hash: the refresh-token rows are exactly the ones from before — so
sessions opened before the change stay usable — and the reset-token,
activation-token and group tables are untouched; every other user's row is
unchanged. -/
theorem change_password_frame (db : DB) (cu : UserRow) (oldP newP : String)
    (verify : String → String → Bool) (hash : String → String)
    (hver : verify oldP cu.hashedPassword = true)
    (hstr : validate_password_strength newP = none) :
    (change_password db cu oldP newP verify hash).1 =
      Except.ok "Password changed successfully."
    ∧ (change_password db cu oldP newP verify hash).2.refreshTokens = db.refreshTokens
    ∧ (change_password db cu oldP newP verify hash).2.passwordResetTokens =
        db.passwordResetTokens
    ∧ (change_password db cu oldP newP verify hash).2.activationTokens =
        db.activationTokens
    ∧ (change_password db cu oldP newP verify hash).2.groups = db.groups
    ∧ (change_password db cu oldP newP verify hash).2.users =
        db.users.map (fun u =>
          if u.id == cu.id then { u with hashedPassword := hash newP } else u)
    ∧ ∀ u ∈ db.users, u.id ≠ cu.id →
        u ∈ (change_password db cu oldP newP verify hash).2.users := by
  have hres : change_password db cu oldP newP verify hash =
      (Except.ok "Password changed successfully.",
       setUserPassword db cu.id (hash newP)) := by
    unfold change_password
    rw [hstr]
    simp [hver]
  rw [hres]
  refine ⟨rfl, rfl, rfl, rfl, rfl, rfl, ?_⟩
  intro u hu hne
  unfold setUserPassword
  simp only [List.mem_map]
  exact ⟨u, hu, by simp [hne]⟩

/-- Witness for C10: alice changes her password on the concrete session
store; the refresh-token row survives and only her hash changes. -/
theorem change_password_frame_witness :
    (change_password dbSession aliceActive "Str0ng!x" "N3wPass!" verifyW hashW).1 =
      Except.ok "Password changed successfully."
    ∧ (change_password dbSession aliceActive "Str0ng!x" "N3wPass!" verifyW hashW).2.refreshTokens =
        dbSession.refreshTokens
    ∧ (change_password dbSession aliceActive "Str0ng!x" "N3wPass!" verifyW hashW).2.passwordResetTokens =
        dbSession.passwordResetTokens
    ∧ (change_password dbSession aliceActive "Str0ng!x" "N3wPass!" verifyW hashW).2.activationTokens =
        dbSession.activationTokens
    ∧ (change_password dbSession aliceActive "Str0ng!x" "N3wPass!" verifyW hashW).2.groups =
        dbSession.groups
    ∧ (change_password dbSession aliceActive "Str0ng!x" "N3wPass!" verifyW hashW).2.users =
        dbSession.users.map (fun u =>
          if u.id == aliceActive.id then { u with hashedPassword := hashW "N3wPass!" } else u)
    ∧ ∀ u ∈ dbSession.users, u.id ≠ aliceActive.id →
        u ∈ (change_password dbSession aliceActive "Str0ng!x" "N3wPass!" verifyW hashW).2.users :=
  change_password_frame dbSession aliceActive "Str0ng!x" "N3wPass!" verifyW hashW
    (by decide) (by decide)

end OnlineCinema
